import Mathlib

/-!
A shallow embedding of `src/syncOpenseaOrders.js`: a single-file Node script
that pages through OpenSea v2 listing orders, normalizes each raw order into
a canonical payload and forwards it to a backend, tracking counters.

JavaScript values flowing through the script are modelled by `JVal`
(null/undefined conflated as `JVal.null`), with JS truthiness, property
access (plain and optional-chaining), `||` (first truthy operand) and `??`.
-/

namespace SyncOpensea

/-- A JSON-like JavaScript value. `null` stands for both `null` and
`undefined` (the script never distinguishes them: it only tests truthiness
and `??`, which treat them alike). -/
inductive JVal where
  | null : JVal
  | bool : Bool → JVal
  | num  : Int → JVal
  | str  : String → JVal
  | arr  : List JVal → JVal
  | obj  : List (String × JVal) → JVal
deriving Repr

/-- JS truthiness of a value (`if (v)`, operand selection of `||`). -/
def JVal.truthy : JVal → Bool
  | .null => false
  | .bool b => b
  | .num n => n != 0
  | .str s => s != ""
  | .arr _ => true
  | .obj _ => true

/-- Key lookup in an object's field list, first binding wins. -/
def findVal (k : String) : List (String × JVal) → Option JVal
  | [] => none
  | (k₂, v) :: rest => if k = k₂ then some v else findVal k rest

/-- Optional-chaining property access `v?.k`: `undefined` on nullish base,
field lookup on objects, the `length` property on arrays and strings,
`undefined` on everything else. Never throws. -/
def JVal.getOpt (v : JVal) (k : String) : JVal :=
  match v with
  | .null => .null
  | .obj kvs => (findVal k kvs).getD .null
  | .arr xs => if k = "length" then .num xs.length else .null
  | .str s => if k = "length" then .num s.length else .null
  | _ => .null

/-- Plain property access `v.k`: a TypeError (modelled as `Except.error`)
when the base is nullish, otherwise as `getOpt`. -/
def JVal.get (v : JVal) (k : String) : Except Unit JVal :=
  match v with
  | .null => .error ()
  | w => .ok (w.getOpt k)

/-- Index access `v[i]` / `v?.[i]` as used by the script (base already known
non-nullish or optional): element of an array, single-character string of a
string, `undefined` otherwise. -/
def JVal.getIdx (v : JVal) (i : Nat) : JVal :=
  match v with
  | .arr xs => (xs.get? i).getD .null
  | .str s => ((s.toList.get? i).map fun c => JVal.str (String.singleton c)).getD .null
  | _ => .null

/-- JS `a || b`: `a` when truthy, else `b`. -/
def jor (a b : JVal) : JVal := if a.truthy then a else b

/-- JS `a ?? b`: `a` unless nullish. -/
def jcoalesce (a b : JVal) : JVal :=
  match a with
  | .null => b
  | v => v

mutual

/-- JS string conversion as used in template literals. -/
def JVal.jsToString : JVal → String
  | .null => "null"
  | .bool b => cond b "true" "false"
  | .num n => toString n
  | .str s => s
  | .obj _ => "[object Object]"
  | .arr xs => jsToStringElems xs

/-- `Array.prototype.toString`: elements joined by commas, nullish elements
rendered as the empty string. -/
def jsToStringElems : List JVal → String
  | [] => ""
  | [JVal.null] => ""
  | [v] => JVal.jsToString v
  | JVal.null :: rest => "," ++ jsToStringElems rest
  | v :: rest => JVal.jsToString v ++ "," ++ jsToStringElems rest

end

/-- Character-wise lowercasing of a string. The script only lowercases
hex addresses, which are ASCII, so ASCII lowercasing (`Char.toLower`)
models `String.prototype.toLowerCase` on every value it is applied to. -/
def asciiLower (s : String) : String := String.mk (s.data.map Char.toLower)

/-- JS `v.toLowerCase()`: succeeds only on strings; on any other value the
method does not exist and the call raises a TypeError (`Except.error`). -/
def toLowerCaseJs (v : JVal) : Except Unit String :=
  match v with
  | .str s => .ok (asciiLower s)
  | _ => .error ()

/-- Short-circuiting `||` over possibly-throwing operands. -/
def jorE (a b : Except Unit JVal) : Except Unit JVal := do
  let va ← a
  if va.truthy then pure va else b

/-! ## Outcomes of the two network calls

The script talks to two external services. Each call's outcome, as far as
the script can observe it, is one of finitely many shapes. -/

/-- Outcome of one upstream `fetch` in `fetchOrders`. -/
inductive FetchOutcome where
  /-- `await fetch(url, ...)` rejects (transport-level error). -/
  | netError : FetchOutcome
  /-- Response arrives with a non-2xx status (`!res.ok`). -/
  | httpError : FetchOutcome
  /-- 2xx response whose body `res.json()` fails to parse (empty/malformed). -/
  | badBody : FetchOutcome
  /-- 2xx response with a body that parses to the given value. -/
  | ok (body : JVal) : FetchOutcome
deriving Repr

/-- Outcome of one backend `fetch` in `postOrderToBackend`. -/
inductive BackendOutcome where
  /-- The `fetch` call rejects (transport-level error). -/
  | netError : BackendOutcome
  /-- Non-2xx status (`!res.ok`). -/
  | httpError : BackendOutcome
  /-- 2xx status; `none` means `res.json()` rejected (the `.catch` turns
  `data` into `null`), `some d` means the body parsed to `d`. -/
  | okBody (body : Option JVal) : BackendOutcome
deriving Repr

/-- `fetchOrders` (src lines 26-44) as a function of the upstream outcome.
`Except.error` models an exception escaping `fetchOrders` (it has no
try/catch of its own): a rejected `fetch` or a rejected `res.json()`.
`Except.ok none` models the `return null` on a non-2xx status;
`Except.ok (some body)` models `return res.json()` succeeding. -/
def fetchOrders : FetchOutcome → Except Unit (Option JVal)
  | .netError => .error ()
  | .httpError => .ok none
  | .badBody => .error ()
  | .ok body => .ok (some body)

/-- `postOrderToBackend` (src lines 46-70) as a function of the backend
outcome. The whole body is wrapped in try/catch, so it never throws:
transport error, non-2xx status and unparseable body all return `false`;
a parsed body returns `true` exactly when its `success` field is truthy
(`if (!data?.success) return false; return true`). -/
def postOrderToBackend : BackendOutcome → Bool
  | .netError => false
  | .httpError => false
  | .okBody none => false
  | .okBody (some d) => (d.getOpt "success").truthy

/-! ## Normalization -/

/-- The record returned by `normalizeOrder` and destructured as
`{ protocol, maker, orderHash, price }`. -/
structure NormParts where
  protocol : JVal
  maker : JVal
  orderHash : JVal
  price : JVal
deriving Repr

/-- Body of `normalizeOrder`'s `try` block (src lines 75-91): plain
property accesses on `order` (which throw when `order` is nullish),
combined with short-circuiting `||`. -/
def normalizeOrderBody (order : JVal) : Except Unit NormParts := do
  let protocol ← jorE (order.get "protocol_data")
    (jorE (order.get "protocolData")
      (jorE (order.get "protocol") (pure JVal.null)))
  let maker ← jorE (order.get "maker")
    (jorE (order.get "maker_address") (pure (JVal.obj [])))
  let orderHash ← jorE (order.get "order_hash")
    (jorE (order.get "hash") (pure JVal.null))
  let price ← jorE ((order.get "price").map fun p => (p.getOpt "current").getOpt "value")
    (jorE ((order.get "price").map fun p => p.getOpt "value")
      (jorE (order.get "current_price")
        (jorE (order.get "starting_price") (pure JVal.null))))
  pure { protocol := protocol, maker := maker, orderHash := orderHash, price := price }

/-- `normalizeOrder` (src lines 73-95): the `try` body, with the `catch`
branch degrading to the all-null/default shape. -/
def normalizeOrder (order : JVal) : NormParts :=
  match normalizeOrderBody order with
  | .ok r => r
  | .error _ =>
    { protocol := JVal.null, maker := JVal.obj [], orderHash := JVal.null, price := JVal.null }

/-- `extractNftMeta` (src lines 98-107): first truthy among
`ord?.criteria?.metadata`, `ord?.asset`, `ord?.assets ? ord.assets[0] : null`,
`ord?.item`, `ord?.items?.[0]`, else `null`. -/
def extractNftMeta (ord : JVal) : JVal :=
  jor ((ord.getOpt "criteria").getOpt "metadata") <|
  jor (ord.getOpt "asset") <|
  jor (if (ord.getOpt "assets").truthy then (ord.getOpt "assets").getIdx 0 else JVal.null) <|
  jor (ord.getOpt "item") <|
  jor ((ord.getOpt "items").getIdx 0) JVal.null

/-- `extractTokenId` (src lines 109-117): first truthy among
`nftMeta?.identifier`, `nftMeta?.token_id`, `nftMeta?.tokenId`,
`nftMeta?.id`, else `null`. -/
def extractTokenId (nftMeta : JVal) : JVal :=
  jor (nftMeta.getOpt "identifier") <|
  jor (nftMeta.getOpt "token_id") <|
  jor (nftMeta.getOpt "tokenId") <|
  jor (nftMeta.getOpt "id") JVal.null

/-- `extractImage` (src lines 119-127): first truthy among
`nftMeta?.image_url`, `nftMeta?.image`, `nftMeta?.thumbnail`,
`nftMeta?.metadata?.image`, else `null`. -/
def extractImage (nftMeta : JVal) : JVal :=
  jor (nftMeta.getOpt "image_url") <|
  jor (nftMeta.getOpt "image") <|
  jor (nftMeta.getOpt "thumbnail") <|
  jor ((nftMeta.getOpt "metadata").getOpt "image") JVal.null

/-! ## The per-record payload and the main loop -/

/-- The object literal posted to the backend (src lines 156-164). -/
structure Payload where
  tokenId : JVal
  price : JVal
  sellerAddress : String
  seaportOrder : JVal
  orderHash : JVal
  image : JVal
  marketplaceContract : JVal
deriving Repr

/-- Construction of the payload literal (src lines 156-164), given the
already-computed pieces. Field initializers run in order; the only one
that can throw is `sellerAddress`:
`(maker?.address || maker || "unknown").toLowerCase()` raises a TypeError
when the selected operand is not a string. -/
def buildPayload (proxy ord : JVal) (parts : NormParts) (tokenId image : JVal) :
    Except Unit Payload := do
  let seller ← toLowerCaseJs
    (jor (parts.maker.getOpt "address") (jor parts.maker (JVal.str "unknown")))
  pure {
    tokenId := tokenId
    price := jcoalesce parts.price (JVal.num 0)
    sellerAddress := seller
    seaportOrder := jor parts.protocol ord
    orderHash := jor parts.orderHash
      (JVal.str (tokenId.jsToString ++ "-" ++
        (jor (parts.maker.getOpt "address") (JVal.str "unknown")).jsToString))
    image := jor image JVal.null
    marketplaceContract := proxy }

/-- The loop's observable state: the two counters, the number of backend
posts made, every payload handed to `postOrderToBackend`, and the cursor
argument of every `fetchOrders` call, in order. -/
structure RunState where
  totalScanned : Nat
  totalSent : Nat
  postCalls : Nat
  posted : List Payload
  cursorTrace : List JVal
deriving Repr

/-- One iteration of `for (const ord of data.orders)` (src lines 145-172):
skip on falsy `nftMeta` or falsy `tokenId`; otherwise build the payload
(which may throw), increment `totalScanned`, post to the backend and
increment `totalSent` on success. `backend` gives the outcome of the n-th
backend post of the run. -/
def processOrder (backend : Nat → BackendOutcome) (proxy ord : JVal) (s : RunState) :
    Except Unit RunState :=
  let nftMeta := extractNftMeta ord
  if ¬ nftMeta.truthy then .ok s
  else
    let tokenId := extractTokenId nftMeta
    let image := extractImage nftMeta
    if ¬ tokenId.truthy then .ok s
    else
      match buildPayload proxy ord (normalizeOrder ord) tokenId image with
      | .error e => .error e
      | .ok payload =>
        let s₁ := { s with totalScanned := s.totalScanned + 1 }
        let sendOk := postOrderToBackend (backend s₁.postCalls)
        .ok { s₁ with
              postCalls := s₁.postCalls + 1
              posted := s₁.posted ++ [payload]
              totalSent := if sendOk then s₁.totalSent + 1 else s₁.totalSent }

/-- The whole `for`-loop over one page's orders. On a thrown record the
error carries the state at the moment of the throw (the throw happens
before any counter update for that record). -/
def processOrders (backend : Nat → BackendOutcome) (proxy : JVal) :
    List JVal → RunState → Except RunState RunState
  | [], s => .ok s
  | ord :: rest, s =>
    match processOrder backend proxy ord s with
    | .error _ => .error s
    | .ok s₂ => processOrders backend proxy rest s₂

/-- `for (const ord of data.orders)` requires `data.orders` to be iterable:
arrays iterate their elements, strings their characters; anything else
raises a TypeError. -/
def jsIterate : JVal → Except Unit (List JVal)
  | .arr xs => .ok xs
  | .str s => .ok (s.toList.map fun c => JVal.str (String.singleton c))
  | _ => .error ()

/-- `cursor = data.next || data.cursor || null` (src line 174). -/
def nextCursorOf (data : JVal) : JVal :=
  jor (data.getOpt "next") (jor (data.getOpt "cursor") JVal.null)

/-- Result of a run of `main`'s `while (true)` loop. -/
inductive RunResult where
  /-- The loop hit a `break` and `main` went on to print the final
  counters: normal termination. -/
  | done (s : RunState) : RunResult
  /-- An exception escaped the loop; it reaches the top-level
  `main().catch` handler, which prints FATAL ERROR and exits 1. -/
  | fatal (s : RunState) : RunResult
  /-- Model artifact: the supplied list of upstream outcomes was exhausted
  while the loop still wanted to fetch. -/
  | outOfPages (s : RunState) : RunResult
deriving Repr

/-- The state carried by a run result. -/
def RunResult.state : RunResult → RunState
  | .done s => s
  | .fatal s => s
  | .outOfPages s => s

/-- `main`'s `while (true)` loop (src lines 136-178), consuming one
upstream outcome per `fetchOrders` call. Each iteration records the cursor
argument, fetches, breaks on `!data?.orders?.length`, processes the page's
orders, then breaks if `data.next || data.cursor || null` is falsy. -/
def runPages (backend : Nat → BackendOutcome) (proxy : JVal) :
    List FetchOutcome → JVal → RunState → RunResult
  | [], _, s => .outOfPages s
  | f :: rest, cursor, s =>
    let s₁ := { s with cursorTrace := s.cursorTrace ++ [cursor] }
    match fetchOrders f with
    | .error _ => .fatal s₁
    | .ok none => .done s₁
    | .ok (some data) =>
      let ordersV := data.getOpt "orders"
      if ¬ (ordersV.getOpt "length").truthy then .done s₁
      else
        match jsIterate ordersV with
        | .error _ => .fatal s₁
        | .ok orders =>
          match processOrders backend proxy orders s₁ with
          | .error s₂ => .fatal s₂
          | .ok s₂ =>
            let c₂ := nextCursorOf data
            if ¬ c₂.truthy then .done s₂
            else runPages backend proxy rest c₂ s₂

/-- `main`'s initial state: `cursor = null`, counters at 0. -/
def initState : RunState :=
  { totalScanned := 0, totalSent := 0, postCalls := 0, posted := [], cursorTrace := [] }

/-- A whole run of `main` against a given sequence of upstream outcomes
and backend outcomes. -/
def runMain (upstream : List FetchOutcome) (backend : Nat → BackendOutcome)
    (proxy : JVal) : RunResult :=
  runPages backend proxy upstream JVal.null initState

/-! ## Concrete fixtures used by counterexamples and witnesses -/

/-- A raw order whose NftMeta and tokenId resolve but that has neither a
`maker` nor a `maker_address` field. -/
def ordNoSeller : JVal :=
  .obj [("criteria", .obj [("metadata", .obj [("identifier", .str "1")])])]

/-- A raw order whose NftMeta and tokenId resolve and whose `maker` is an
object without an `address` field. -/
def ordMakerNoAddress : JVal :=
  .obj [("criteria", .obj [("metadata", .obj [("identifier", .str "2")])]),
        ("maker", .obj [("name", .str "alice")])]

/-- A raw order with resolvable NftMeta/tokenId, a maker whose address has
upper-case letters, and no order hash. -/
def ordMakerUpper : JVal :=
  .obj [("criteria", .obj [("metadata", .obj [("identifier", .str "1")])]),
        ("maker", .obj [("address", .str "0xABC")])]

/-- The payload the script builds and forwards for `ordMakerUpper`. -/
def payloadMakerUpper : Payload :=
  { tokenId := .str "1", price := .num 0, sellerAddress := "0xabc",
    seaportOrder := ordMakerUpper, orderHash := .str "1-0xABC",
    image := JVal.null, marketplaceContract := JVal.null }

/-- The loop state after processing `ordMakerUpper` from the initial state
against an accepting backend. -/
def stAfterMakerUpper : RunState :=
  { totalScanned := 1, totalSent := 1, postCalls := 1,
    posted := [payloadMakerUpper], cursorTrace := [] }

/-- A backend that accepts every payload (`{"success": true}`). -/
def backendAccepts : Nat → BackendOutcome :=
  fun _ => .okBody (some (.obj [("success", .bool true)]))

/-- An NftMeta whose `identifier` is the (falsy) number 0 and whose
`token_id` is 5. -/
def metaZeroId : JVal := .obj [("identifier", .num 0), ("token_id", .num 5)]

/-- A raw order whose only tokenId candidate is the falsy number 0. -/
def ordZeroId : JVal :=
  .obj [("criteria", .obj [("metadata", .obj [("identifier", .num 0)])])]

/-- An upstream page with an empty `orders` array but a `next` cursor. -/
def pageEmptyWithCursor : JVal := .obj [("orders", .arr []), ("next", .str "abc")]

/-- An upstream page with one valid order and no cursor. -/
def pageOneOrder : JVal := .obj [("orders", .arr [ordMakerUpper])]

/-- An upstream page with one valid order and a `next` cursor. -/
def pageOneOrderWithCursor : JVal :=
  .obj [("orders", .arr [ordMakerUpper]), ("next", .str "abc")]

/-! ## Claim theorems -/

/-- C1: the claim says a RawOrder with resolvable NftMeta and tokenId but no
resolvable seller is forwarded with `sellerAddress = "unknown"`. On the code
this is a bug: `maker` defaults to `{}`, which is truthy, so
`(maker?.address || maker || "unknown")` selects `{}` (the `"unknown"`
fallback is dead) and `.toLowerCase()` raises a TypeError; the record is
never forwarded and the exception escapes the record-processing step. -/
theorem c1_no_seller_throws_instead_of_unknown :
    (extractNftMeta ordNoSeller).truthy = true ∧
    (extractTokenId (extractNftMeta ordNoSeller)).truthy = true ∧
    (normalizeOrder ordNoSeller).maker = JVal.obj [] ∧
    buildPayload JVal.null ordNoSeller (normalizeOrder ordNoSeller)
      (extractTokenId (extractNftMeta ordNoSeller))
      (extractImage (extractNftMeta ordNoSeller)) = .error () ∧
    processOrder backendAccepts JVal.null ordNoSeller initState = .error () :=
  ⟨rfl, rfl, rfl, rfl, rfl⟩

/-- C2: the claim says normalization never raises and no internal extraction
error reaches the top-level handler. On the code a RawOrder with resolvable
NftMeta/tokenId whose maker object has no `address` field makes payload
construction raise (TypeError on `.toLowerCase()` of a non-string), and the
exception propagates out of the per-record step to the top-level handler
(`RunResult.fatal`). -/
theorem c2_normalization_raises_to_top_level :
    processOrder backendAccepts JVal.null ordMakerNoAddress initState = .error () ∧
    runPages backendAccepts JVal.null
        [FetchOutcome.ok (.obj [("orders", .arr [ordMakerNoAddress])])] JVal.null initState =
      .fatal { initState with cursorTrace := [JVal.null] } :=
  ⟨rfl, rfl⟩

/-- C3 counterexample: the claim says a transport-level error or a malformed
response body is a soft failure with no exception propagating and the loop
terminating normally. On the code, `fetchOrders` has no try/catch: a
rejected `fetch` (and likewise a rejected `res.json()`) escapes it and the
run ends in the top-level FATAL handler, not in normal termination. -/
theorem c3_transport_error_is_fatal :
    fetchOrders FetchOutcome.netError = .error () ∧
    fetchOrders FetchOutcome.badBody = .error () ∧
    runMain [FetchOutcome.netError] backendAccepts JVal.null =
      .fatal { initState with cursorTrace := [JVal.null] } :=
  ⟨rfl, rfl, rfl⟩

/-- C3 amended: a non-2xx response is a soft failure (`fetchOrders` returns
null, the loop breaks and reports normally), and a parsed body without
listings likewise terminates the loop normally; but a transport-level error
or an unparseable body escapes `fetchOrders` and aborts the run fatally. In
every case no further fetch is attempted. -/
theorem c3_fetch_failure_modes (backend : Nat → BackendOutcome) (proxy cursor : JVal)
    (rest : List FetchOutcome) (s : RunState) :
    runPages backend proxy (FetchOutcome.httpError :: rest) cursor s =
      .done { s with cursorTrace := s.cursorTrace ++ [cursor] } ∧
    runPages backend proxy (FetchOutcome.netError :: rest) cursor s =
      .fatal { s with cursorTrace := s.cursorTrace ++ [cursor] } ∧
    runPages backend proxy (FetchOutcome.badBody :: rest) cursor s =
      .fatal { s with cursorTrace := s.cursorTrace ++ [cursor] } ∧
    (∀ data : JVal, ((data.getOpt "orders").getOpt "length").truthy = false →
      runPages backend proxy (FetchOutcome.ok data :: rest) cursor s =
        .done { s with cursorTrace := s.cursorTrace ++ [cursor] }) := by
  refine ⟨rfl, rfl, rfl, fun data h => ?_⟩
  simp [runPages, fetchOrders, h]

/-- C3 amended, witness at a concrete input. -/
theorem c3_fetch_failure_modes_witness :
    runPages backendAccepts JVal.null (FetchOutcome.ok pageEmptyWithCursor :: []) JVal.null
        initState =
      .done { initState with cursorTrace := initState.cursorTrace ++ [JVal.null] } :=
  (c3_fetch_failure_modes backendAccepts JVal.null JVal.null [] initState).2.2.2
    pageEmptyWithCursor rfl

/-- C5 counterexample: the claim says the first non-null tokenId candidate
wins and a record whose candidate holds 0 or the empty string is not
skipped. On the code the chain is `||`, which selects the first truthy
candidate: with `identifier: 0, token_id: 5` it returns 5 (not 0), and a
record whose only candidate is 0 yields a null tokenId and is skipped
(state unchanged, no forward call). -/
theorem c5_zero_tokenId_skipped :
    extractTokenId metaZeroId = JVal.num 5 ∧
    extractTokenId (.obj [("identifier", .num 0)]) = JVal.null ∧
    (extractNftMeta ordZeroId).truthy = true ∧
    processOrder backendAccepts JVal.null ordZeroId initState = .ok initState :=
  ⟨rfl, rfl, rfl, rfl⟩

/-- C5 amended: tokenId extraction tries identifier, token_id, tokenId, id
in that fixed order and returns the first truthy value (falsy values such
as null, 0, "" or false are passed over, and null is returned when all four
are falsy); a record whose extracted tokenId is falsy is a Skip, leaving
the loop state unchanged. -/
theorem c5_first_truthy_wins (m ord proxy : JVal) (backend : Nat → BackendOutcome)
    (s : RunState) :
    extractTokenId m =
      (if (m.getOpt "identifier").truthy then m.getOpt "identifier"
       else if (m.getOpt "token_id").truthy then m.getOpt "token_id"
       else if (m.getOpt "tokenId").truthy then m.getOpt "tokenId"
       else if (m.getOpt "id").truthy then m.getOpt "id"
       else JVal.null) ∧
    ((extractTokenId (extractNftMeta ord)).truthy = false →
      processOrder backend proxy ord s = .ok s) := by
  constructor
  · simp only [extractTokenId, jor]
  · intro h
    unfold processOrder
    by_cases h₂ : (extractNftMeta ord).truthy <;> simp [h, h₂]

/-- C5 amended, witness at a concrete input. -/
theorem c5_first_truthy_wins_witness :
    extractTokenId metaZeroId =
      (if (metaZeroId.getOpt "identifier").truthy then metaZeroId.getOpt "identifier"
       else if (metaZeroId.getOpt "token_id").truthy then metaZeroId.getOpt "token_id"
       else if (metaZeroId.getOpt "tokenId").truthy then metaZeroId.getOpt "tokenId"
       else if (metaZeroId.getOpt "id").truthy then metaZeroId.getOpt "id"
       else JVal.null) ∧
    processOrder backendAccepts JVal.null ordZeroId initState = .ok initState :=
  ⟨(c5_first_truthy_wins metaZeroId ordZeroId JVal.null backendAccepts initState).1,
   (c5_first_truthy_wins metaZeroId ordZeroId JVal.null backendAccepts initState).2 rfl⟩

/-- C6: a record with no truthy NftMeta, or no truthy tokenId, is skipped:
the loop state — both counters, the backend call count and the list of
forwarded payloads — is left exactly as it was. -/
theorem c6_skip_leaves_state_unchanged (backend : Nat → BackendOutcome)
    (proxy ord : JVal) (s : RunState)
    (h : (extractNftMeta ord).truthy = false ∨
         (extractTokenId (extractNftMeta ord)).truthy = false) :
    processOrder backend proxy ord s = .ok s := by
  unfold processOrder
  rcases h with h | h
  · simp [h]
  · by_cases h₂ : (extractNftMeta ord).truthy <;> simp [h, h₂]

/-- C6 witness at a concrete input: an order with no NftMeta location. -/
theorem c6_skip_leaves_state_unchanged_witness :
    processOrder backendAccepts JVal.null (JVal.obj [("foo", JVal.str "bar")]) initState =
      .ok initState :=
  c6_skip_leaves_state_unchanged backendAccepts JVal.null
    (JVal.obj [("foo", JVal.str "bar")]) initState (Or.inl rfl)

/-- C4 counterexample: the claim says a forwarded record without a
resolvable order hash gets `orderHash = tokenId + "-" + sellerAddress`. On
the code the synthesized hash interpolates `maker?.address` verbatim, while
`sellerAddress` is lowercased: for a maker address `0xABC` the forwarded
payload has `sellerAddress = "0xabc"` but `orderHash = "1-0xABC"`, which is
not `"1-" ++ sellerAddress`. -/
theorem c4_hash_uses_raw_maker_address :
    processOrder backendAccepts JVal.null ordMakerUpper initState = .ok stAfterMakerUpper ∧
    (normalizeOrder ordMakerUpper).orderHash = JVal.null ∧
    payloadMakerUpper.sellerAddress = "0xabc" ∧
    payloadMakerUpper.orderHash ≠ JVal.str ("1-" ++ payloadMakerUpper.sellerAddress) := by
  refine ⟨rfl, rfl, rfl, fun h => ?_⟩
  exact absurd (JVal.str.inj h) (by decide)

/-- C4 amended: for a record that passes both skip guards, is forwarded,
and has no resolvable order hash, the forwarded payload's `orderHash` is
the template string `tokenId + "-" + (maker?.address || "unknown")`: the
maker's `address` field verbatim (not the lowercased sellerAddress), or
`"unknown"` when the resolved maker value has no address field. -/
theorem c4_synthesized_hash (backend : Nat → BackendOutcome) (proxy ord : JVal)
    (s : RunState) (pl : Payload)
    (hmeta : (extractNftMeta ord).truthy = true)
    (htok : (extractTokenId (extractNftMeta ord)).truthy = true)
    (hok : buildPayload proxy ord (normalizeOrder ord)
            (extractTokenId (extractNftMeta ord))
            (extractImage (extractNftMeta ord)) = .ok pl)
    (hhash : (normalizeOrder ord).orderHash.truthy = false) :
    pl.orderHash = JVal.str ((extractTokenId (extractNftMeta ord)).jsToString ++ "-" ++
      (jor ((normalizeOrder ord).maker.getOpt "address") (JVal.str "unknown")).jsToString) ∧
    processOrder backend proxy ord s =
      .ok { totalScanned := s.totalScanned + 1,
            totalSent := if postOrderToBackend (backend s.postCalls) then s.totalSent + 1
                         else s.totalSent,
            postCalls := s.postCalls + 1,
            posted := s.posted ++ [pl],
            cursorTrace := s.cursorTrace } := by
  constructor
  · unfold buildPayload at hok
    cases htl : toLowerCaseJs (jor ((normalizeOrder ord).maker.getOpt "address")
        (jor (normalizeOrder ord).maker (JVal.str "unknown"))) with
    | error e => rw [htl] at hok; simp [Except.bind] at hok
    | ok seller =>
      rw [htl] at hok
      simp only [Except.bind, bind, pure, Except.pure, Except.ok.injEq] at hok
      rw [← hok]
      simp [jor, hhash]
  · unfold processOrder
    simp [hmeta, htok, hok]

/-- C4 amended, witness at a concrete input. -/
theorem c4_synthesized_hash_witness :
    payloadMakerUpper.orderHash =
      JVal.str ((extractTokenId (extractNftMeta ordMakerUpper)).jsToString ++ "-" ++
        (jor ((normalizeOrder ordMakerUpper).maker.getOpt "address")
          (JVal.str "unknown")).jsToString) ∧
    processOrder backendAccepts JVal.null ordMakerUpper initState =
      .ok { totalScanned := initState.totalScanned + 1,
            totalSent := if postOrderToBackend (backendAccepts initState.postCalls)
                         then initState.totalSent + 1 else initState.totalSent,
            postCalls := initState.postCalls + 1,
            posted := initState.posted ++ [payloadMakerUpper],
            cursorTrace := initState.cursorTrace } :=
  c4_synthesized_hash backendAccepts JVal.null ordMakerUpper initState payloadMakerUpper
    rfl rfl rfl rfl

/-- C8: `postOrderToBackend` returns true exactly when the backend replied
2xx with a parseable body whose `success` field is truthy; every failure
mode (transport error, non-2xx status, unparseable body, body without a
truthy success flag) returns false without throwing. For a forwarded
record the loop counts it as scanned either way and as sent only when the
post returned true, then moves on. -/
theorem c8_forward_semantics :
    (∀ b : BackendOutcome, postOrderToBackend b = true ↔
      ∃ d, b = BackendOutcome.okBody (some d) ∧ (d.getOpt "success").truthy = true) ∧
    (∀ (backend : Nat → BackendOutcome) (proxy ord : JVal) (s : RunState) (pl : Payload),
      (extractNftMeta ord).truthy = true →
      (extractTokenId (extractNftMeta ord)).truthy = true →
      buildPayload proxy ord (normalizeOrder ord)
          (extractTokenId (extractNftMeta ord))
          (extractImage (extractNftMeta ord)) = .ok pl →
      processOrder backend proxy ord s =
        .ok { totalScanned := s.totalScanned + 1,
              totalSent := if postOrderToBackend (backend s.postCalls) then s.totalSent + 1
                           else s.totalSent,
              postCalls := s.postCalls + 1,
              posted := s.posted ++ [pl],
              cursorTrace := s.cursorTrace }) := by
  constructor
  · intro b
    cases b with
    | netError => simp [postOrderToBackend]
    | httpError => simp [postOrderToBackend]
    | okBody ob =>
      cases ob with
      | none => simp [postOrderToBackend]
      | some d => simp [postOrderToBackend]
  · intro backend proxy ord s pl hmeta htok hok
    unfold processOrder
    simp [hmeta, htok, hok]

/-- C8 witness: Scenario C shape — a valid record against a backend that
replies with a non-2xx status is counted as scanned but not sent. -/
theorem c8_forward_semantics_witness :
    processOrder (fun _ => BackendOutcome.httpError) JVal.null ordMakerUpper initState =
      .ok { totalScanned := initState.totalScanned + 1,
            totalSent := if postOrderToBackend
                ((fun _ => BackendOutcome.httpError) initState.postCalls)
              then initState.totalSent + 1 else initState.totalSent,
            postCalls := initState.postCalls + 1,
            posted := initState.posted ++ [payloadMakerUpper],
            cursorTrace := initState.cursorTrace } :=
  c8_forward_semantics.2 (fun _ => BackendOutcome.httpError) JVal.null ordMakerUpper initState
    payloadMakerUpper rfl rfl rfl

/-- C9: the whole normalization pipeline is a pure function of the raw
order — identical inputs give identical extraction results, identical
normalized parts and identical payload construction, with no dependence on
any external state. -/
theorem c9_normalize_pure (o₁ o₂ : JVal) (h : o₁ = o₂) :
    extractNftMeta o₁ = extractNftMeta o₂ ∧
    extractTokenId (extractNftMeta o₁) = extractTokenId (extractNftMeta o₂) ∧
    extractImage (extractNftMeta o₁) = extractImage (extractNftMeta o₂) ∧
    normalizeOrder o₁ = normalizeOrder o₂ ∧
    ∀ proxy : JVal,
      buildPayload proxy o₁ (normalizeOrder o₁) (extractTokenId (extractNftMeta o₁))
          (extractImage (extractNftMeta o₁)) =
        buildPayload proxy o₂ (normalizeOrder o₂) (extractTokenId (extractNftMeta o₂))
          (extractImage (extractNftMeta o₂)) := by
  subst h
  exact ⟨rfl, rfl, rfl, rfl, fun _ => rfl⟩

/-- C9 witness at a concrete input. -/
theorem c9_normalize_pure_witness :
    extractNftMeta ordMakerUpper = extractNftMeta ordMakerUpper ∧
    extractTokenId (extractNftMeta ordMakerUpper) = extractTokenId (extractNftMeta ordMakerUpper) ∧
    extractImage (extractNftMeta ordMakerUpper) = extractImage (extractNftMeta ordMakerUpper) ∧
    normalizeOrder ordMakerUpper = normalizeOrder ordMakerUpper ∧
    ∀ proxy : JVal,
      buildPayload proxy ordMakerUpper (normalizeOrder ordMakerUpper)
          (extractTokenId (extractNftMeta ordMakerUpper))
          (extractImage (extractNftMeta ordMakerUpper)) =
        buildPayload proxy ordMakerUpper (normalizeOrder ordMakerUpper)
          (extractTokenId (extractNftMeta ordMakerUpper))
          (extractImage (extractNftMeta ordMakerUpper)) :=
  c9_normalize_pure ordMakerUpper ordMakerUpper rfl

/-! ## Helper lemmas about the loop state -/

/-- The state carried by a `processOrders` result, whichever branch. -/
def exceptState : Except RunState RunState → RunState
  | .ok s => s
  | .error s => s

/-- Processing one record either skips (state unchanged), forwards one
payload (scanned bumped, sent bumped on success, one post recorded), or
throws; the cursor trace is never touched. -/
theorem processOrder_cases (backend : Nat → BackendOutcome) (proxy ord : JVal)
    (s : RunState) :
    processOrder backend proxy ord s = .ok s ∨
    (∃ pl, processOrder backend proxy ord s =
      .ok { totalScanned := s.totalScanned + 1,
            totalSent := if postOrderToBackend (backend s.postCalls) then s.totalSent + 1
                         else s.totalSent,
            postCalls := s.postCalls + 1,
            posted := s.posted ++ [pl],
            cursorTrace := s.cursorTrace }) ∨
    processOrder backend proxy ord s = .error () := by
  unfold processOrder
  by_cases h₁ : (extractNftMeta ord).truthy
  · by_cases h₂ : (extractTokenId (extractNftMeta ord)).truthy
    · cases hb : buildPayload proxy ord (normalizeOrder ord)
          (extractTokenId (extractNftMeta ord)) (extractImage (extractNftMeta ord)) with
      | error e => right; right; simp [h₁, h₂, hb]
      | ok pl => right; left; exact ⟨pl, by simp [h₁, h₂, hb]⟩
    · left; simp [h₁, h₂]
  · left; simp [h₁]

/-- A successful record step preserves `totalSent ≤ totalScanned`. -/
theorem processOrder_sent_le (backend : Nat → BackendOutcome) (proxy ord : JVal)
    (s s₂ : RunState) (hinv : s.totalSent ≤ s.totalScanned)
    (h : processOrder backend proxy ord s = .ok s₂) :
    s₂.totalSent ≤ s₂.totalScanned := by
  rcases processOrder_cases backend proxy ord s with hc | ⟨pl, hc⟩ | hc
  · rw [h] at hc
    cases hc
    exact hinv
  · rw [h] at hc
    cases hc
    by_cases hp : postOrderToBackend (backend s.postCalls) <;> simp [hp] <;> omega
  · rw [h] at hc
    cases hc

/-- Processing a page of orders preserves `totalSent ≤ totalScanned`,
whether it completes or throws midway. -/
theorem processOrders_sent_le (backend : Nat → BackendOutcome) (proxy : JVal) :
    ∀ (xs : List JVal) (s : RunState), s.totalSent ≤ s.totalScanned →
    (exceptState (processOrders backend proxy xs s)).totalSent ≤
      (exceptState (processOrders backend proxy xs s)).totalScanned := by
  intro xs
  induction xs with
  | nil => intro s h; exact h
  | cons ord rest ih =>
    intro s h
    unfold processOrders
    cases hp : processOrder backend proxy ord s with
    | error e => exact h
    | ok s₂ => exact ih s₂ (processOrder_sent_le backend proxy ord s s₂ h hp)

/-- The whole pagination loop preserves `totalSent ≤ totalScanned` in
whatever state it ends. -/
theorem runPages_sent_le (backend : Nat → BackendOutcome) (proxy : JVal) :
    ∀ (upstream : List FetchOutcome) (c : JVal) (s : RunState),
    s.totalSent ≤ s.totalScanned →
    (runPages backend proxy upstream c s).state.totalSent ≤
      (runPages backend proxy upstream c s).state.totalScanned := by
  intro upstream
  induction upstream with
  | nil => intro c s h; exact h
  | cons f rest ih =>
    intro c s h
    unfold runPages
    cases f with
    | netError => exact h
    | httpError => exact h
    | badBody => exact h
    | ok data =>
      simp only [fetchOrders]
      by_cases hlen : ((data.getOpt "orders").getOpt "length").truthy
      · simp only [hlen, not_true, if_neg, if_false]
        cases hit : jsIterate (data.getOpt "orders") with
        | error e => exact h
        | ok orders =>
          dsimp only
          have hrec := processOrders_sent_le backend proxy orders
            { s with cursorTrace := s.cursorTrace ++ [c] } h
          cases hp : processOrders backend proxy orders
              { s with cursorTrace := s.cursorTrace ++ [c] } with
          | error s₂ => rw [hp] at hrec; exact hrec
          | ok s₂ =>
            rw [hp] at hrec
            dsimp only
            by_cases hcur : (nextCursorOf data).truthy
            · simp only [hcur, not_true, if_neg, if_false]
              exact ih (nextCursorOf data) s₂ hrec
            · simp only [hcur, not_false_iff, if_pos]
              exact hrec
      · simp only [hlen, not_false_iff, if_pos]
        exact h

/-- C10: forwarded-record steps can only keep `totalSent ≤ totalScanned`
(sent is bumped only when scanned was just bumped for the same record), and
every complete run of the loop — however it ends — satisfies
`totalSent ≤ totalScanned` in its final reported state. -/
theorem c10_sent_le_scanned :
    (∀ (backend : Nat → BackendOutcome) (proxy ord : JVal) (s s₂ : RunState),
      s.totalSent ≤ s.totalScanned → processOrder backend proxy ord s = .ok s₂ →
      s₂.totalSent ≤ s₂.totalScanned) ∧
    (∀ (upstream : List FetchOutcome) (backend : Nat → BackendOutcome) (proxy : JVal),
      (runMain upstream backend proxy).state.totalSent ≤
        (runMain upstream backend proxy).state.totalScanned) :=
  ⟨fun backend proxy ord s s₂ hinv h => processOrder_sent_le backend proxy ord s s₂ hinv h,
   fun upstream backend proxy =>
     runPages_sent_le backend proxy upstream JVal.null initState (Nat.le_refl 0)⟩

/-! ## Pagination helpers for C7 -/

/-- Whether payload construction for `ord` would throw. -/
def buildFails (proxy ord : JVal) : Bool :=
  match buildPayload proxy ord (normalizeOrder ord)
      (extractTokenId (extractNftMeta ord)) (extractImage (extractNftMeta ord)) with
  | .error _ => true
  | .ok _ => false

/-- Whether processing `ord` throws: both skip guards pass and payload
construction raises. -/
def orderFaults (proxy ord : JVal) : Bool :=
  (extractNftMeta ord).truthy && (extractTokenId (extractNftMeta ord)).truthy &&
    buildFails proxy ord

/-- The `orders` field of a page, when it is an array. -/
def pageOrders (p : JVal) : Option (List JVal) :=
  match p.getOpt "orders" with
  | .arr xs => some xs
  | _ => none

/-- A well-shaped page: `orders` is an array whose every element processes
without throwing. -/
def pageGood (proxy p : JVal) : Bool :=
  match pageOrders p with
  | some xs => xs.all fun o => !(orderFaults proxy o)
  | none => false

/-- A page whose `orders` array is nonempty. -/
def pageNonEmpty (p : JVal) : Bool :=
  match pageOrders p with
  | some xs => !xs.isEmpty
  | none => false

/-- A page sequence of the shape the claim quantifies over: every page is
well-shaped; every non-final page has a nonempty `orders` array and a
truthy next-cursor; the final page has no truthy next-cursor. -/
def goodSeq (proxy : JVal) : List JVal → Bool
  | [] => false
  | [p] => pageGood proxy p && !(nextCursorOf p).truthy
  | p :: q :: rest =>
    pageGood proxy p && pageNonEmpty p && (nextCursorOf p).truthy &&
      goodSeq proxy (q :: rest)

/-- The cursor arguments of the successive fetch calls for a page
sequence, starting from cursor `c`: each page's next-cursor is passed to
the following fetch. -/
def cursorSeq (c : JVal) : List JVal → List JVal
  | [] => []
  | p :: rest => c :: cursorSeq (nextCursorOf p) rest

/-- One cursor argument per page. -/
theorem cursorSeq_length (c : JVal) (pages : List JVal) :
    (cursorSeq c pages).length = pages.length := by
  induction pages generalizing c with
  | nil => rfl
  | cons p rest ih => simp [cursorSeq, ih]

/-- The `length` property of a nonempty array is truthy. -/
theorem arr_length_truthy (x : JVal) (xs : List JVal) :
    ((JVal.arr (x :: xs)).getOpt "length").truthy = true := by
  show (if "length" = "length" then JVal.num (x :: xs).length else JVal.null).truthy = true
  rw [if_pos rfl]
  show ((((x :: xs).length : Int)) != 0) = true
  simp only [bne_iff_ne, ne_eq, List.length_cons]
  omega

/-- Arrays iterate their elements. -/
theorem jsIterate_arr (xs : List JVal) : jsIterate (JVal.arr xs) = .ok xs := rfl

/-- `pageOrders` inverts `getOpt "orders"` on arrays. -/
theorem pageOrders_eq (p : JVal) (xs : List JVal) (h : pageOrders p = some xs) :
    p.getOpt "orders" = JVal.arr xs := by
  unfold pageOrders at h
  cases hg : p.getOpt "orders" <;> rw [hg] at h <;> simp_all

/-- A record that does not fault processes successfully and leaves the
cursor trace untouched. -/
theorem processOrder_ok_of_no_fault (backend : Nat → BackendOutcome) (proxy ord : JVal)
    (s : RunState) (hf : orderFaults proxy ord = false) :
    ∃ s₂, processOrder backend proxy ord s = .ok s₂ ∧ s₂.cursorTrace = s.cursorTrace := by
  rcases processOrder_cases backend proxy ord s with hc | ⟨pl, hc⟩ | hc
  · exact ⟨s, hc, rfl⟩
  · exact ⟨_, hc, rfl⟩
  · exfalso
    unfold processOrder at hc
    by_cases h₁ : (extractNftMeta ord).truthy
    · by_cases h₂ : (extractTokenId (extractNftMeta ord)).truthy
      · cases hb : buildPayload proxy ord (normalizeOrder ord)
            (extractTokenId (extractNftMeta ord)) (extractImage (extractNftMeta ord)) with
        | error e =>
          unfold orderFaults buildFails at hf
          rw [hb] at hf
          simp [h₁, h₂] at hf
        | ok pl => simp [h₁, h₂, hb] at hc
      · simp [h₁, h₂] at hc
    · simp [h₁] at hc

/-- A page of fault-free records processes successfully and leaves the
cursor trace untouched. -/
theorem processOrders_ok_of_no_fault (backend : Nat → BackendOutcome) (proxy : JVal) :
    ∀ (xs : List JVal) (s : RunState),
    (xs.all fun o => !(orderFaults proxy o)) = true →
    ∃ s₂, processOrders backend proxy xs s = .ok s₂ ∧ s₂.cursorTrace = s.cursorTrace := by
  intro xs
  induction xs with
  | nil => intro s _; exact ⟨s, rfl, rfl⟩
  | cons ord rest ih =>
    intro s hall
    simp only [List.all_cons, Bool.and_eq_true, Bool.not_eq_true'] at hall
    obtain ⟨s₂, hp, htr⟩ := processOrder_ok_of_no_fault backend proxy ord s hall.1
    obtain ⟨s₃, hp₂, htr₂⟩ := ih s₂ (by simpa using hall.2)
    refine ⟨s₃, ?_, htr₂.trans htr⟩
    unfold processOrders
    rw [hp]
    exact hp₂

/-- C7 counterexample: the claim says every page sequence whose final page
has no next-cursor gets exactly one fetch per page. On the code a non-final
page whose `orders` array is empty already terminates the loop
(`!data?.orders?.length` breaks), so a two-page sequence whose first page
is empty-but-with-cursor gets only one fetch call, not two. -/
theorem c7_empty_page_stops_early :
    runMain [FetchOutcome.ok pageEmptyWithCursor, FetchOutcome.ok pageOneOrder]
        backendAccepts JVal.null =
      .done { initState with cursorTrace := [JVal.null] } ∧
    nextCursorOf pageOneOrder = JVal.null ∧
    ({ initState with cursorTrace := [JVal.null] } : RunState).cursorTrace.length = 1 :=
  ⟨rfl, rfl, rfl⟩

/-- C7 amended: for a finite page sequence in which every non-final page
carries a nonempty well-shaped `orders` array and a truthy next-cursor, the
final page carries a well-shaped `orders` array and no truthy next-cursor,
and no record faults, the loop makes exactly one fetch call per page —
passing each page's next-cursor to the following call — and then stops in
the normal terminal state. -/
theorem c7_one_fetch_per_page (backend : Nat → BackendOutcome) (proxy : JVal) :
    ∀ (pages : List JVal) (c : JVal) (s : RunState),
    goodSeq proxy pages = true →
    ∃ s₂, runPages backend proxy (pages.map FetchOutcome.ok) c s = .done s₂ ∧
      s₂.cursorTrace = s.cursorTrace ++ cursorSeq c pages ∧
      (cursorSeq c pages).length = pages.length := by
  intro pages
  induction pages with
  | nil => intro c s hg; cases hg
  | cons p rest ih =>
    intro c s hg
    cases rest with
    | nil =>
      simp only [goodSeq, Bool.and_eq_true, Bool.not_eq_true'] at hg
      obtain ⟨hpg, hcur⟩ := hg
      unfold pageGood at hpg
      cases ho : pageOrders p with
      | none => rw [ho] at hpg; cases hpg
      | some xs =>
        rw [ho] at hpg
        have horders := pageOrders_eq p xs ho
        simp only [List.map_cons, List.map_nil, runPages, fetchOrders, horders]
        cases xs with
        | nil =>
          refine ⟨{ s with cursorTrace := s.cursorTrace ++ [c] }, ?_, rfl, rfl⟩
          simp [JVal.getOpt, JVal.truthy]
        | cons x xs₂ =>
          dsimp at hpg
          obtain ⟨s₂, hp, htr⟩ := processOrders_ok_of_no_fault backend proxy (x :: xs₂)
            { s with cursorTrace := s.cursorTrace ++ [c] } hpg
          refine ⟨s₂, ?_, by rw [htr]; simp [cursorSeq], by simp [cursorSeq]⟩
          simp only [arr_length_truthy, jsIterate_arr, not_true, if_false]
          rw [hp]
          simp [hcur]
    | cons q rest₂ =>
      simp only [goodSeq, Bool.and_eq_true] at hg
      obtain ⟨⟨⟨hpg, hne⟩, hcur⟩, hrest⟩ := hg
      unfold pageGood at hpg
      unfold pageNonEmpty at hne
      cases ho : pageOrders p with
      | none => rw [ho] at hpg; cases hpg
      | some xs =>
        rw [ho] at hpg hne
        have horders := pageOrders_eq p xs ho
        cases xs with
        | nil => simp at hne
        | cons x xs₂ =>
          dsimp at hpg
          obtain ⟨s₂, hp, htr⟩ := processOrders_ok_of_no_fault backend proxy (x :: xs₂)
            { s with cursorTrace := s.cursorTrace ++ [c] } hpg
          obtain ⟨s₃, hrun, htr₃, hlen₃⟩ := ih (nextCursorOf p) s₂ (by simpa using hrest)
          refine ⟨s₃, ?_, ?_, ?_⟩
          · simp only [List.map_cons, runPages, fetchOrders, horders,
              arr_length_truthy, jsIterate_arr, not_true, if_false]
            rw [hp]
            simp only [hcur, not_true, if_false]
            exact hrun
          · rw [htr₃, htr]
            simp [cursorSeq, List.append_assoc]
          · simp [cursorSeq, cursorSeq_length]

/-- C7 amended, witness: Scenario E — two one-order pages, the first with
cursor "abc", the second cursorless. -/
theorem c7_one_fetch_per_page_witness :
    ∃ s₂, runPages backendAccepts JVal.null
        ([pageOneOrderWithCursor, pageOneOrder].map FetchOutcome.ok) JVal.null initState =
      .done s₂ ∧
      s₂.cursorTrace = initState.cursorTrace ++
        cursorSeq JVal.null [pageOneOrderWithCursor, pageOneOrder] ∧
      (cursorSeq JVal.null [pageOneOrderWithCursor, pageOneOrder]).length =
        ([pageOneOrderWithCursor, pageOneOrder] : List JVal).length :=
  c7_one_fetch_per_page backendAccepts JVal.null [pageOneOrderWithCursor, pageOneOrder]
    JVal.null initState rfl

/-- C10 witness at a concrete input. -/
theorem c10_sent_le_scanned_witness :
    stAfterMakerUpper.totalSent ≤ stAfterMakerUpper.totalScanned ∧
    (runMain [FetchOutcome.ok pageOneOrder] backendAccepts JVal.null).state.totalSent ≤
      (runMain [FetchOutcome.ok pageOneOrder] backendAccepts JVal.null).state.totalScanned :=
  ⟨c10_sent_le_scanned.1 backendAccepts JVal.null ordMakerUpper initState stAfterMakerUpper
      (Nat.le_refl 0) rfl,
   c10_sent_le_scanned.2 [FetchOutcome.ok pageOneOrder] backendAccepts JVal.null⟩

end SyncOpensea

